import Mathlib

/-!
Shallow embedding of the University-Attendance-System backend.

Conventions:
* `datetime` / `time` values are modelled as minutes (`Int`); subtracting two
  datetimes in Python corresponds to subtracting the two minute counts.
* Python floats (confidence scores, hours) are modelled as `Rat`.
* SQLAlchemy query results are modelled as Lean lists; `query(...).first()`
  becomes `List.find?`, `.all()` with a filter becomes `List.filter`.
* Raised `ValueError`s and returned error dictionaries are modelled by
  explicit result constructors.

Sources embedded:
* `backend/services/attendance_service.py` (`UniversityAttendanceService`)
* `backend/api/routes/attendance.py` (day-mode check-in/out routes)
* `backend/services/face_recognition.py` (`FaceRecognitionService`)
* `backend/services/analytics_service.py` (`AnalyticsService`)
-/

namespace UniAttend

/-- Role of a user, `api/models/user.py` (`UserRole`); only the roles the
attendance paths inspect are kept. -/
inductive UserRole where
  | student
  | lecturer
deriving DecidableEq

/-- A user row, `api/models/user.py`. -/
structure User where
  id : Nat
  role : UserRole
deriving DecidableEq

/-- A class session row, `api/models/class_session.py`. -/
structure ClassSession where
  id : Nat
  course_id : Nat
  session_date : Int
  duration_minutes : Int
  is_active : Bool
deriving DecidableEq

/-- An enrollment row, `api/models/enrollment.py`. -/
structure Enrollment where
  student_id : Nat
  course_id : Nat
  enrollment_status : String
deriving DecidableEq

/-- An attendance record as constructed by
`UniversityAttendanceService.mark_student_attendance`
(`attendance_service.py`, lines 104-114). -/
structure AttendanceRecord where
  student_id : Nat
  course_id : Nat
  session_id : Nat
  marked_at : Int
  status : String
  face_confidence : Rat
  recognition_method : String
deriving DecidableEq

/-- The database state visible to the university attendance service. -/
structure DB where
  sessions : List ClassSession
  users : List User
  enrollments : List Enrollment
  records : List AttendanceRecord
deriving DecidableEq

/-- `UniversityAttendanceService.calculate_attendance_status`
(`attendance_service.py`, lines 32-48).  `late_threshold_minutes` is the
instance configuration read from `settings.LATE_THRESHOLD_MINUTES`. -/
def calculate_attendance_status (late_threshold_minutes : Int)
    (marked_time session_start_time : Int) (session_end_time : Option Int) :
    String :=
  let late_threshold := session_start_time + late_threshold_minutes
  if marked_time ≤ late_threshold then
    "present"
  else
    match session_end_time with
    | some session_end =>
        if marked_time ≤ session_end then "late"
        else "late"
    | none => "late"

/-- Outcome of `mark_student_attendance`: a raised `ValueError`, the
`success: False` dictionary, or the `success: True` dictionary. -/
inductive MarkOutcome where
  | raised (msg : String)
  | failure (error : String)
  | marked (status : String) (marked_at : Int) (confidence : Rat)
deriving DecidableEq

/-- `UniversityAttendanceService.mark_student_attendance`
(`attendance_service.py`, lines 50-138), as a pure state transformer.
The three database queries become `List.find?`; the `db.add` + `db.commit`
becomes appending the new record. -/
def mark_student_attendance (late_threshold_minutes : Int) (db : DB)
    (student_id session_id : Nat) (face_confidence : Rat)
    (recognition_method : String) (now : Int) : MarkOutcome × DB :=
  match db.sessions.find? (fun s => s.id == session_id) with
  | none => (.raised "Session not found", db)
  | some session =>
    match db.users.find? (fun u =>
        u.id == student_id && u.role == UserRole.student) with
    | none => (.raised "Student not found", db)
    | some _student =>
      match db.records.find? (fun a =>
          a.student_id == student_id && a.session_id == session_id) with
      | some _existing =>
          (.failure "Attendance already marked for this session", db)
      | none =>
          let session_end := session.session_date + session.duration_minutes
          let status := calculate_attendance_status late_threshold_minutes
            now session.session_date (some session_end)
          let attendance : AttendanceRecord :=
            { student_id := student_id
              course_id := session.course_id
              session_id := session_id
              marked_at := now
              status := status
              face_confidence := face_confidence
              recognition_method := recognition_method }
          (.marked status now face_confidence,
           { db with records := db.records ++ [attendance] })

/-- Python `round(x, 2)` on an exact value: round half to even at two
decimal places. -/
def round2 (q : Rat) : Rat :=
  let y := q * 100
  let f : Int := y.floor
  let r := y - (f : Rat)
  if r < 1 / 2 then (f : Rat) / 100
  else if r > 1 / 2 then ((f + 1 : Int) : Rat) / 100
  else if f % 2 = 0 then (f : Rat) / 100
  else ((f + 1 : Int) : Rat) / 100

/-- One entry of the `students` list built by `get_session_attendance`
(`attendance_service.py`, lines 186-212). -/
structure StudentDetail where
  student_id : Nat
  status : String
  marked_at : Option Int
  confidence : Option Rat
  method : Option String
deriving DecidableEq

/-- The `summary` dictionary of `get_session_attendance`
(`attendance_service.py`, lines 222-229). -/
structure SessionSummary where
  total_students : Int
  present_students : Int
  absent_students : Int
  present_count : Nat
  late_count : Nat
  attendance_rate : Rat
deriving DecidableEq

/-- The dictionary returned by `get_session_attendance`. -/
structure SessionReport where
  session_id : Nat
  summary : SessionSummary
  students : List StudentDetail
deriving DecidableEq

/-- The active enrollments query of `get_session_attendance`
(`attendance_service.py`, lines 160-165). -/
def activeEnrollments (db : DB) (course_id : Nat) : List Enrollment :=
  db.enrollments.filter (fun e =>
    e.course_id == course_id && e.enrollment_status == "active")

/-- The per-session attendance records query of `get_session_attendance`
(`attendance_service.py`, lines 168-170). -/
def sessionRecords (db : DB) (session_id : Nat) : List AttendanceRecord :=
  db.records.filter (fun a => a.session_id == session_id)

/-- The student-detail entry built for one enrollment
(`attendance_service.py`, lines 186-212): the first attendance record with
the enrolled student's id, else a synthesized `"absent"` report entry. -/
def studentDetailFor (attendance_records : List AttendanceRecord)
    (e : Enrollment) : StudentDetail :=
  match attendance_records.find? (fun a => a.student_id == e.student_id) with
  | some a =>
      { student_id := e.student_id
        status := a.status
        marked_at := some a.marked_at
        confidence := some a.face_confidence
        method := some a.recognition_method }
  | none =>
      { student_id := e.student_id
        status := "absent"
        marked_at := none
        confidence := none
        method := none }

/-- `UniversityAttendanceService.get_session_attendance`
(`attendance_service.py`, lines 140-238). -/
def get_session_attendance (db : DB) (session_id : Nat) :
    Except String SessionReport :=
  match db.sessions.find? (fun s => s.id == session_id) with
  | none => .error "Session not found"
  | some session =>
    let enrollments := activeEnrollments db session.course_id
    let attendance_records := sessionRecords db session_id
    let total_students : Int := enrollments.length
    let present_students : Int := attendance_records.length
    let absent_students := total_students - present_students
    let present_count :=
      (attendance_records.filter (fun a => a.status == "present")).length
    let late_count :=
      (attendance_records.filter (fun a => a.status == "late")).length
    let attendance_rate : Rat :=
      if total_students > 0 then
        (present_students : Rat) / (total_students : Rat) * 100
      else 0
    .ok
      { session_id := session.id
        summary :=
          { total_students := total_students
            present_students := present_students
            absent_students := absent_students
            present_count := present_count
            late_count := late_count
            attendance_rate := round2 attendance_rate }
        students := enrollments.map (studentDetailFor attendance_records) }

/-- A day-mode attendance record as used by `api/routes/attendance.py` and
`api/models/attendance.py` (`user_id`/`date` shape; times are minutes of
day). -/
structure DayAttendanceRecord where
  user_id : Nat
  date : Int
  check_in_time : Option Int
  check_out_time : Option Int
  total_hours : Option Rat
  status : String
deriving DecidableEq

/-- `get_today_attendance` (`api/routes/attendance.py`, lines 30-63): finds
today's record; when none exists it builds an in-memory `"absent"` record
for the response WITHOUT adding it to the session (no `db.add`), so the
stored record list is returned unchanged. -/
def get_today_attendance (dayRecords : List DayAttendanceRecord)
    (user_id : Nat) (today : Int) :
    DayAttendanceRecord × List DayAttendanceRecord :=
  match dayRecords.find? (fun a => a.user_id == user_id && a.date == today) with
  | some attendance => (attendance, dayRecords)
  | none =>
      ({ user_id := user_id
         date := today
         check_in_time := none
         check_out_time := none
         total_hours := none
         status := "absent" }, dayRecords)

/-- Total hours computed at check-out (`api/routes/attendance.py`, lines
262-264 and 421-423): `now` minus `datetime.combine(today,
check_in_time)`, both on the same calendar date, so the difference is the
minutes-of-day difference; no overnight adjustment is made. -/
def checkout_total_hours (now_time check_in_time : Int) : Rat :=
  ((now_time - check_in_time : Int) : Rat) / 60

/-- The final-status computation of `face_check_out`
(`api/routes/attendance.py`, lines 266-279).  `work_end` and
`early_departure_minutes` come from settings; `prior_status` is the status
stored at check-in. -/
def face_check_out_status (now_time check_in_time : Int)
    (work_end early_departure_minutes : Int) (prior_status : String) :
    String :=
  let total_hours := checkout_total_hours now_time check_in_time
  let early_threshold := work_end - early_departure_minutes
  if total_hours ≥ 8 then
    if total_hours > 9 then "overtime" else "present"
  else if now_time < early_threshold then "early_departure"
  else prior_status

/-- The status update of `manual_check_out`
(`api/routes/attendance.py`, lines 434-441): only runs when
`total_hours ≥ 8`; the `elif status == "late": pass` branch keeps the
prior status. -/
def manual_check_out_status (now_time check_in_time : Int)
    (prior_status : String) : String :=
  let total_hours := checkout_total_hours now_time check_in_time
  if total_hours ≥ 8 then
    if total_hours > 9 then "overtime"
    else if prior_status == "late" then prior_status
    else "present"
  else prior_status

/-- `np.max(prediction_proba)` in `FaceRecognitionService.recognize_face`
(`face_recognition.py`, line 162): the largest class probability.  Class
probabilities are nonnegative, so folding `max` from `0` computes the same
maximum. -/
def recognize_confidence (prediction_proba : List Rat) : Rat :=
  prediction_proba.foldl max 0

/-- The decision core of `FaceRecognitionService.recognize_face`
(`face_recognition.py`, lines 148-179): `recognized` is
`confidence >= threshold`; nothing about the second-best candidate is
consulted.  Returns `(is_recognized, confidence)`. -/
def recognize_face (prediction_proba : List Rat) (threshold : Rat) :
    Bool × Rat :=
  let confidence := recognize_confidence prediction_proba
  (decide (threshold ≤ confidence), confidence)

/-- The two highest candidate scores (top, second-best), used to state the
spec's identification rule. -/
def topTwo (prediction_proba : List Rat) : Rat × Rat :=
  prediction_proba.foldl
    (fun p c =>
      if c > p.1 then (c, p.1)
      else if c > p.2 then (p.1, c)
      else p)
    (0, 0)

/-- The identification acceptance rule as the spec words it (section 4.2 /
claim C4): accept iff the top score is at least the identification
threshold AND it exceeds the second-best score by at least the margin
`m`.  This definition follows the spec, not the source, and exists to be
compared against `recognize_face`. -/
def specIdentAccept (prediction_proba : List Rat) (threshold m : Rat) :
    Bool :=
  let p := topTwo prediction_proba
  if threshold ≤ p.1 ∧ m ≤ p.1 - p.2 then true else false

/-- The match decision of `FaceRecognitionService.verify_face_against_user`
(`face_recognition.py`, line 368) and of `recognize_face` (line 168):
accept iff `confidence >= threshold`. -/
def verify_is_match (confidence threshold : Rat) : Bool :=
  decide (threshold ≤ confidence)

/-- Confidence derived from cosine similarity in `verify_face_against_user`
(`face_recognition.py`, line 366). -/
def verify_confidence (similarity : Rat) : Rat :=
  (similarity + 1) / 2

/-- The day-mode classifier claim C3 attributes to the code (spec section
4.3, day mode): overnight-adjusted total hours, then first-match-wins
precedence Overtime / HalfDay / Late / EarlyDeparture / Present.  This
definition follows the spec's words, not the source, and exists to be
compared against `face_check_out_status` / `manual_check_out_status`. -/
def specDayClassify (overtime_threshold_hours : Rat)
    (scheduled_start grace_period scheduled_end early_departure_grace : Int)
    (first_event_time last_event_time : Int) : String :=
  let raw : Rat := ((last_event_time - first_event_time : Int) : Rat)
  let total_minutes :=
    if last_event_time < first_event_time then raw + 1440 else raw
  let total_hours := total_minutes / 60
  if total_hours > overtime_threshold_hours + 1 then "overtime"
  else if total_hours < 4 then "half_day"
  else if first_event_time > scheduled_start + grace_period then "late"
  else if last_event_time < scheduled_end - early_departure_grace then
    "early_departure"
  else "present"

/-- One marking request: the arguments of a `mark_student_attendance`
call. -/
structure MarkOp where
  student_id : Nat
  session_id : Nat
  face_confidence : Rat
  recognition_method : String
  now : Int
deriving DecidableEq

/-- Serialized execution of a sequence of marking requests: each call runs
to completion before the next starts. -/
def runMarks (late_threshold_minutes : Int) (db : DB) (ops : List MarkOp) :
    DB :=
  ops.foldl
    (fun db op =>
      (mark_student_attendance late_threshold_minutes db op.student_id
        op.session_id op.face_confidence op.recognition_method op.now).2)
    db

/-- Number of attendance records stored for one (student, session) pair. -/
def pairCount (records : List AttendanceRecord)
    (student_id session_id : Nat) : Nat :=
  (records.filter (fun a =>
    a.student_id == student_id && a.session_id == session_id)).length

/-- In-flight state of one concurrent `mark_student_attendance` call,
split at its two storage accesses: the existence check
(`attendance_service.py`, lines 85-90) and the insert (lines 104-117).
`observed` is the result of the existence check once taken. -/
structure MarkThread where
  op : MarkOp
  course_id : Nat
  status : String
  observed : Option Bool
  finished : Bool
deriving DecidableEq

/-- A fresh thread about to run `mark_student_attendance` for `op` against
a session of course `course_id`; `status` is what the classifier will
store (computed from the session schedule as in lines 98-101). -/
def startThread (op : MarkOp) (course_id : Nat) (status : String) :
    MarkThread :=
  { op := op, course_id := course_id, status := status,
    observed := none, finished := false }

/-- The record a thread inserts if its existence check saw no record. -/
def threadRecord (t : MarkThread) : AttendanceRecord :=
  { student_id := t.op.student_id
    course_id := t.course_id
    session_id := t.op.session_id
    marked_at := t.op.now
    status := t.status
    face_confidence := t.op.face_confidence
    recognition_method := t.op.recognition_method }

/-- One atomic storage step of a marking thread: first the read (existence
check), then the write (insert only if the check saw nothing — exactly the
unguarded read-then-write of `mark_student_attendance`). -/
def threadStep (records : List AttendanceRecord) (t : MarkThread) :
    List AttendanceRecord × MarkThread :=
  match t.observed with
  | none =>
      (records,
       { t with observed := some (records.any (fun a =>
           a.student_id == t.op.student_id &&
           a.session_id == t.op.session_id)) })
  | some true => (records, { t with finished := true })
  | some false =>
      if t.finished then (records, t)
      else (records ++ [threadRecord t], { t with finished := true })

/-- Run two concurrent marking threads under a schedule: `false` lets
thread 0 take its next atomic step, `true` lets thread 1. -/
def runTwoThreads (records : List AttendanceRecord) (t0 t1 : MarkThread) :
    List Bool → List AttendanceRecord
  | [] => records
  | b :: rest =>
      if b then
        let s := threadStep records t1
        runTwoThreads s.1 t0 s.2 rest
      else
        let s := threadStep records t0
        runTwoThreads s.1 s.2 t1 rest

/-- An attendance record as queried by
`AnalyticsService.calculate_attendance_trends`
(`analytics_service.py`, lines 70-82): day shape plus the joined user's
department. -/
structure ARecord where
  user_id : Nat
  date : Int
  status : String
  department : String
deriving DecidableEq

/-- The query filter of `AnalyticsService.calculate_attendance_trends`
(`analytics_service.py`, lines 70-82): date range, then `user_id` if
given, else `department` if given. -/
def trendsQuery (records : List ARecord) (start_date end_date : Int)
    (department : Option String) (user_id : Option Nat) : List ARecord :=
  records.filter (fun r =>
    start_date ≤ r.date && r.date ≤ end_date &&
    (match user_id with
     | some u => r.user_id == u
     | none =>
       match department with
       | some d => r.department == d
       | none => true))

/-- Per-date counters accumulated in `daily_stats`
(`analytics_service.py`, lines 85-100). -/
structure DayStats where
  total : Nat
  present : Nat
  late : Nat
  absent : Nat
  overtime : Nat
deriving DecidableEq

/-- The `daily_stats` entry for one date (`analytics_service.py`, lines
89-100): each record of that date increments `total` and the counter of
its status. -/
def dayStatsFor (records : List ARecord) (d : Int) : DayStats :=
  let day := records.filter (fun r => r.date == d)
  { total := day.length
    present := (day.filter (fun r => r.status == "present")).length
    late := (day.filter (fun r => r.status == "late")).length
    absent := (day.filter (fun r => r.status == "absent")).length
    overtime := (day.filter (fun r => r.status == "overtime")).length }

/-- Insert a date into a sorted duplicate-free date list; folding this
over the records reproduces `sorted(daily_stats.items())`
(`analytics_service.py`, line 104): the distinct dates in ascending
order. -/
def insertDate (d : Int) : List Int → List Int
  | [] => [d]
  | x :: xs =>
      if d < x then d :: x :: xs
      else if d == x then x :: xs
      else x :: insertDate d xs

/-- The distinct record dates in ascending order. -/
def sortedDates (records : List ARecord) : List Int :=
  records.foldl (fun acc r => insertDate r.date acc) []

/-- One element of the `trends` list (`analytics_service.py`, lines
103-120), including the 7-day moving average added afterwards. -/
structure TrendPoint where
  date : Int
  attendance_rate : Rat
  total_employees : Nat
  present : Nat
  late : Nat
  absent : Nat
  overtime : Nat
  moving_avg_7d : Option Rat
deriving DecidableEq

/-- The trend entry for one date (`analytics_service.py`, lines 104-114):
`attendance_rate = (present + late + overtime) / max(total, 1) * 100`,
rounded to two decimals. -/
def trendPointFor (records : List ARecord) (d : Int) : TrendPoint :=
  let s := dayStatsFor records d
  let attendance_rate : Rat :=
    ((s.present + s.late + s.overtime : Nat) : Rat) /
      ((max s.total 1 : Nat) : Rat) * 100
  { date := d
    attendance_rate := round2 attendance_rate
    total_employees := s.total
    present := s.present
    late := s.late
    absent := s.absent
    overtime := s.overtime
    moving_avg_7d := none }

/-- The moving-average pass (`analytics_service.py`, lines 117-120): for
every index `i ≥ 6`, average of the rates at indices `i-6 .. i`. -/
def addMovingAverages (pts : List TrendPoint) : List TrendPoint :=
  let rates := pts.map (fun p => p.attendance_rate)
  if pts.length ≥ 7 then
    pts.enum.map (fun ip =>
      if 6 ≤ ip.1 then
        let avg := round2 (((rates.drop (ip.1 - 6)).take 7).sum / 7)
        { ip.2 with moving_avg_7d := some avg }
      else ip.2)
  else pts

/-- Python `max(trends, key=rate)`: the first element with the maximal
attendance rate. -/
def bestDay (pts : List TrendPoint) : Option TrendPoint :=
  pts.foldl
    (fun acc p =>
      match acc with
      | none => some p
      | some b => if p.attendance_rate > b.attendance_rate then some p
                  else some b)
    none

/-- Python `min(trends, key=rate)`: the first element with the minimal
attendance rate. -/
def worstDay (pts : List TrendPoint) : Option TrendPoint :=
  pts.foldl
    (fun acc p =>
      match acc with
      | none => some p
      | some b => if p.attendance_rate < b.attendance_rate then some p
                  else some b)
    none

/-- The result dictionary of `calculate_attendance_trends`
(`analytics_service.py`, lines 122-131). -/
structure TrendsResult where
  trends : List TrendPoint
  total_records : Nat
  avg_attendance_rate : Rat
  best_day : Option TrendPoint
  worst_day : Option TrendPoint
deriving DecidableEq

/-- The computation of `AnalyticsService.calculate_attendance_trends`
without the cache (`analytics_service.py`, lines 65-131): a pure function
of the record store and the query key. -/
def attendance_trends_pure (records : List ARecord)
    (start_date end_date : Int) (department : Option String)
    (user_id : Option Nat) : TrendsResult :=
  let queried := trendsQuery records start_date end_date department user_id
  let pts := addMovingAverages
    ((sortedDates queried).map (trendPointFor queried))
  { trends := pts
    total_records := queried.length
    avg_attendance_rate :=
      if pts ≠ [] then
        round2 ((pts.map (fun p => p.attendance_rate)).sum /
          ((pts.length : Nat) : Rat))
      else 0
    best_day := bestDay pts
    worst_day := worstDay pts }

/-- The cache key of `AnalyticsService._get_cache_key`
(`analytics_service.py`, lines 29-31), modelled as the parameter tuple
itself. -/
structure TrendsKey where
  start_date : Int
  end_date : Int
  department : Option String
  user_id : Option Nat
deriving DecidableEq

/-- One entry of `self.cache` (`analytics_service.py`, lines 133-137). -/
structure CacheEntry where
  data : TrendsResult
  timestamp : Int
deriving DecidableEq

/-- The mutable state of an `AnalyticsService` instance: its cache. -/
structure AnalyticsState where
  cache : List (TrendsKey × CacheEntry)
deriving DecidableEq

/-- `AnalyticsService._is_cache_valid` (`analytics_service.py`, lines
33-42): the key is present and `(now - cached_time).seconds < 300`;
`timedelta.seconds` is the seconds component, hence the `% 86400`. -/
def is_cache_valid (st : AnalyticsState) (key : TrendsKey) (now : Int) :
    Bool :=
  match st.cache.find? (fun e => e.1 == key) with
  | none => false
  | some e => decide ((now - e.2.timestamp) % 86400 < 300)

/-- Store a result in the cache (`analytics_service.py`, lines 133-137). -/
def cacheStore (st : AnalyticsState) (key : TrendsKey)
    (data : TrendsResult) (now : Int) : AnalyticsState :=
  { cache := (key, { data := data, timestamp := now }) ::
      st.cache.filter (fun e => !(e.1 == key)) }

/-- `AnalyticsService.calculate_attendance_trends`
(`analytics_service.py`, lines 44-145) as a state transformer over the
instance cache: return the cached data on a valid hit, otherwise compute
the pure result and cache it. -/
def calculate_attendance_trends (st : AnalyticsState) (now : Int)
    (records : List ARecord) (key : TrendsKey) :
    TrendsResult × AnalyticsState :=
  if is_cache_valid st key now then
    match st.cache.find? (fun e => e.1 == key) with
    | some e => (e.2.data, st)
    | none => (attendance_trends_pure records key.start_date key.end_date
        key.department key.user_id, st)
  else
    let result := attendance_trends_pure records key.start_date
      key.end_date key.department key.user_id
    (result, cacheStore st key result now)

/-- A cache is coherent with a record store when every stored entry equals
the pure recomputation of its key over that store. -/
def cacheCoherent (st : AnalyticsState) (records : List ARecord) : Prop :=
  ∀ e ∈ st.cache,
    e.2.data = attendance_trends_pure records e.1.start_date e.1.end_date
      e.1.department e.1.user_id

/-- Insert a string key into a sorted duplicate-free key list; folding
this over the sessions reproduces `sorted(weekly_data.items())` /
`sorted(monthly_data.items())` (`attendance_service.py`, lines 550, 562):
the distinct period keys in ascending order. -/
def insertKey (k : String) : List String → List String
  | [] => [k]
  | x :: xs =>
      if k < x then k :: x :: xs
      else if k == x then x :: xs
      else x :: insertKey k xs

/-- The distinct period keys of a session list, ascending. -/
def periodKeys (keyOf : ClassSession → String)
    (sessions : List ClassSession) : List String :=
  sessions.foldl (fun acc s => insertKey (keyOf s) acc) []

/-- The records counted for one session
(`attendance_service.py`, line 544). -/
def sessionAttendances (attendance_records : List AttendanceRecord)
    (s : ClassSession) : Nat :=
  (attendance_records.filter (fun a => a.session_id == s.id)).length

/-- One element of `weekly_trends` / `monthly_trends`
(`attendance_service.py`, lines 553-558, 565-570). -/
structure TrendEntry where
  period : String
  sessions : Nat
  attendances : Nat
  rate : Rat
deriving DecidableEq

/-- The dictionary returned by the university trend computation
(`attendance_service.py`, lines 572-575). -/
structure CourseTrends where
  weekly_trends : List TrendEntry
  monthly_trends : List TrendEntry
deriving DecidableEq

/-- The trend entry for one period key (`attendance_service.py`, lines
534-558): the accumulated `daily`/`monthly` counters for the key are the
number of its sessions and the sum of their per-session record counts;
`rate = attendances / (sessions * total_students) * 100` when expected is
positive, rounded to two decimals. -/
def trendEntryFor (keyOf : ClassSession → String)
    (sessions : List ClassSession)
    (attendance_records : List AttendanceRecord) (total_students : Nat)
    (k : String) : TrendEntry :=
  let group := sessions.filter (fun s => keyOf s == k)
  let group_sessions := group.length
  let group_attendances :=
    (group.map (sessionAttendances attendance_records)).sum
  let expected := group_sessions * total_students
  let rate : Rat :=
    if expected > 0 then
      (group_attendances : Rat) / (expected : Rat) * 100
    else 0
  { period := k, sessions := group_sessions,
    attendances := group_attendances, rate := round2 rate }

/-- The instance attributes a `UniversityAttendanceService` carries
(`attendance_service.py`, lines 28-30): configuration set in `__init__`
and only ever read. -/
structure UniversityAttendanceServiceConfig where
  late_threshold_minutes : Int
  minimum_attendance_percentage : Rat
deriving DecidableEq

/-- `UniversityAttendanceService._calculate_attendance_trends`
(`attendance_service.py`, lines 522-575), as a transformer over the
instance state (which it neither reads nor writes).  `weekKey` and
`monthKey` model the pure date-formatting calls
`strftime("%Y-W%U")` and `strftime("%Y-%m")` on the session date. -/
def _calculate_attendance_trends
    (self : UniversityAttendanceServiceConfig)
    (weekKey monthKey : Int → String)
    (sessions : List ClassSession)
    (attendance_records : List AttendanceRecord)
    (total_students : Nat) :
    CourseTrends × UniversityAttendanceServiceConfig :=
  if sessions = [] then
    ({ weekly_trends := [], monthly_trends := [] }, self)
  else
    ({ weekly_trends :=
         (periodKeys (fun s => weekKey s.session_date) sessions).map
           (trendEntryFor (fun s => weekKey s.session_date) sessions
             attendance_records total_students)
       monthly_trends :=
         (periodKeys (fun s => monthKey s.session_date) sessions).map
           (trendEntryFor (fun s => monthKey s.session_date) sessions
             attendance_records total_students) }, self)

/-- A one-record analytics history. -/
def recordsC7 : List ARecord :=
  [{ user_id := 1, date := 10, status := "present",
     department := "Computer Science" }]

/-- The query key used in the C7 scenario. -/
def keyC7 : TrendsKey :=
  { start_date := 0, end_date := 20, department := none, user_id := none }

/-- An `AnalyticsService` whose cache holds, for `keyC7`, the result
computed when the record history was still empty (timestamp 0): the cache
key omits the history, so this entry is not invalidated when records are
added. -/
def staleTrendsState : AnalyticsState :=
  { cache := [(keyC7,
      { data := attendance_trends_pure [] 0 20 none none,
        timestamp := 0 })] }

/-! ## Concrete fixtures for counterexamples and witnesses -/

/-- A database with a closed session (`is_active = false`), one actively
enrolled student and no attendance records: the state after a session
ends with a student who never produced an event. -/
def dbClosedSession : DB :=
  { sessions := [{ id := 1, course_id := 1, session_date := 0,
                   duration_minutes := 60, is_active := false }]
    users := [{ id := 1, role := UserRole.student }]
    enrollments := [{ student_id := 1, course_id := 1,
                      enrollment_status := "active" }]
    records := [] }

/-- A database with one open session and one enrolled student, no
records yet. -/
def dbOneStudent : DB :=
  { sessions := [{ id := 1, course_id := 1, session_date := 0,
                   duration_minutes := 60, is_active := true }]
    users := [{ id := 1, role := UserRole.student }]
    enrollments := [{ student_id := 1, course_id := 1,
                      enrollment_status := "active" }]
    records := [] }

/-- A marking request for student 1 in session 1. -/
def opStudent1 : MarkOp :=
  { student_id := 1, session_id := 1, face_confidence := 1,
    recognition_method := "face_recognition", now := 5 }

/-- A thread running `mark_student_attendance` for student 1 / session 1
(the classifier stores `"present"` for an event at minute 5 of a session
starting at minute 0 with grace 15). -/
def raceThread : MarkThread := startThread opStudent1 1 "present"

/-- A database with one session of course 1, two actively enrolled
students (one marked, one not) and one dropped enrollment. -/
def dbReport : DB :=
  { sessions := [{ id := 1, course_id := 1, session_date := 0,
                   duration_minutes := 60, is_active := true }]
    users := [{ id := 1, role := UserRole.student },
              { id := 2, role := UserRole.student },
              { id := 3, role := UserRole.student }]
    enrollments := [{ student_id := 1, course_id := 1,
                      enrollment_status := "active" },
                    { student_id := 2, course_id := 1,
                      enrollment_status := "active" },
                    { student_id := 3, course_id := 1,
                      enrollment_status := "dropped" }]
    records := [{ student_id := 1, course_id := 1, session_id := 1,
                  marked_at := 5, status := "present",
                  face_confidence := 1,
                  recognition_method := "face_recognition" }] }

/-! ## Helper lemmas -/

/-- The session-mode classifier only ever returns `"present"` or
`"late"`. -/
theorem calc_status_mem (g t s : Int) (e : Option Int) :
    calculate_attendance_status g t s e = "present" ∨
    calculate_attendance_status g t s e = "late" := by
  unfold calculate_attendance_status
  by_cases h : t ≤ s + g
  · left; simp [h]
  · right; cases e with
    | none => simp [h]
    | some v => by_cases h2 : t ≤ v <;> simp [h, h2]

/-- Folding `max` over a list never drops below the starting value. -/
theorem le_foldl_max (l : List Rat) (a : Rat) : a ≤ l.foldl max a := by
  induction l generalizing a with
  | nil => exact le_refl a
  | cons x xs ih =>
      exact le_trans (le_max_left a x) (ih (max a x))

/-! ## Claim theorems -/

/-- C2: for every session occasion with start `s`, grace `g` and end `e`,
the session-mode classifier returns `"present"` iff the event time is at
most `s + g` and `"late"` otherwise (also past the scheduled end); in
particular with start 09:00 (minute 540) and grace 15, an event at 09:10
is `"present"` and one at 09:20 is `"late"`. -/
theorem c2_session_classifier (g t s e : Int) :
    (calculate_attendance_status g t s (some e) = "present" ↔ t ≤ s + g) ∧
    (calculate_attendance_status g t s (some e) = "late" ↔ ¬ t ≤ s + g) ∧
    calculate_attendance_status 15 550 540 (some 600) = "present" ∧
    calculate_attendance_status 15 560 540 (some 600) = "late" := by
  refine ⟨?_, ?_, by decide, by decide⟩
  · unfold calculate_attendance_status
    by_cases h : t ≤ s + g
    · simp [h]
    · by_cases h2 : t ≤ e <;> simp [h, h2]
  · unfold calculate_attendance_status
    by_cases h : t ≤ s + g
    · simp [h]
    · by_cases h2 : t ≤ e <;> simp [h, h2]

/-- Witness for C2 at the concrete 09:00/15-minute example. -/
theorem c2_session_classifier_witness :
    calculate_attendance_status 15 550 540 (some 600) = "present" :=
  (c2_session_classifier 15 550 540 600).2.2.1

/-- C5: threshold monotonicity of the verification decision
`confidence >= threshold`: with `t1 ≤ t2`, acceptance at `t2` implies
acceptance at `t1`, and rejection at `t1` implies rejection at `t2`. -/
theorem c5_threshold_monotone (c t1 t2 : Rat) (h : t1 ≤ t2) :
    (verify_is_match c t2 = true → verify_is_match c t1 = true) ∧
    (verify_is_match c t1 = false → verify_is_match c t2 = false) := by
  unfold verify_is_match
  constructor
  · intro h2
    simp only [decide_eq_true_eq] at h2 ⊢
    exact le_trans h h2
  · intro h1
    simp only [decide_eq_false_iff_not] at h1 ⊢
    intro hc
    exact h1 (le_trans h hc)

/-- Witness for C5 at confidence 0.6, thresholds 0.5 ≤ 0.75. -/
theorem c5_threshold_monotone_witness :
    (1 : Rat) / 2 ≤ 3 / 4 ∧
    ((verify_is_match (6 / 10) (3 / 4) = true →
        verify_is_match (6 / 10) (1 / 2) = true) ∧
     (verify_is_match (6 / 10) (1 / 2) = false →
        verify_is_match (6 / 10) (3 / 4) = false)) :=
  ⟨by norm_num, c5_threshold_monotone (6 / 10) (1 / 2) (3 / 4) (by norm_num)⟩

/-- C10: when the session id matches no `ClassSession`, or the student id
matches no user with the STUDENT role, `mark_student_attendance` raises
`"Session not found"` / `"Student not found"` and returns the database
unchanged. -/
theorem c10_mark_not_found (g : Int) (db : DB) (sid sess : Nat)
    (conf : Rat) (m : String) (now : Int) :
    (db.sessions.find? (fun s => s.id == sess) = none →
      mark_student_attendance g db sid sess conf m now =
        (.raised "Session not found", db)) ∧
    (∀ s, db.sessions.find? (fun x => x.id == sess) = some s →
      db.users.find? (fun u =>
        u.id == sid && u.role == UserRole.student) = none →
      mark_student_attendance g db sid sess conf m now =
        (.raised "Student not found", db)) := by
  constructor
  · intro h
    unfold mark_student_attendance
    rw [h]
  · intro s hs hu
    unfold mark_student_attendance
    rw [hs, hu]

/-- Witness for C10: a database with no sessions, and one with a session
but no student user. -/
theorem c10_mark_not_found_witness :
    mark_student_attendance 15
        { sessions := [], users := [], enrollments := [], records := [] }
        1 1 (9 / 10) "face_recognition" 0 =
      (.raised "Session not found",
       { sessions := [], users := [], enrollments := [], records := [] }) ∧
    mark_student_attendance 15
        { sessions := [⟨1, 1, 0, 60, true⟩], users := [],
          enrollments := [], records := [] }
        1 1 (9 / 10) "face_recognition" 0 =
      (.raised "Student not found",
       { sessions := [⟨1, 1, 0, 60, true⟩], users := [],
         enrollments := [], records := [] }) :=
  ⟨(c10_mark_not_found 15
      { sessions := [], users := [], enrollments := [], records := [] }
      1 1 (9 / 10) "face_recognition" 0).1 (by decide),
   (c10_mark_not_found 15
      { sessions := [⟨1, 1, 0, 60, true⟩], users := [],
        enrollments := [], records := [] }
      1 1 (9 / 10) "face_recognition" 0).2 ⟨1, 1, 0, 60, true⟩
      (by decide) (by decide)⟩

/-- C1: when the session and the student exist and an `AttendanceRecord`
for the (student, session) pair already exists, `mark_student_attendance`
returns the `success: False` / "already marked" result and the database
— in particular the record list and every field of the existing record —
is unchanged. -/
theorem c1_already_marked (g : Int) (db : DB) (sid sess : Nat)
    (conf : Rat) (m : String) (now : Int) (s : ClassSession) (u : User)
    (a : AttendanceRecord)
    (hs : db.sessions.find? (fun x => x.id == sess) = some s)
    (hu : db.users.find? (fun x =>
      x.id == sid && x.role == UserRole.student) = some u)
    (ha : db.records.find? (fun x =>
      x.student_id == sid && x.session_id == sess) = some a) :
    mark_student_attendance g db sid sess conf m now =
      (.failure "Attendance already marked for this session", db) := by
  unfold mark_student_attendance
  rw [hs, hu, ha]

/-- Witness for C1: one session, one student, one existing record for the
pair; the retry is rejected and the state is returned unchanged. -/
theorem c1_already_marked_witness :
    mark_student_attendance 15
        { sessions := [⟨1, 1, 0, 60, true⟩]
          users := [⟨1, UserRole.student⟩]
          enrollments := []
          records := [⟨1, 1, 1, 5, "present", 9 / 10, "face_recognition"⟩] }
        1 1 (93 / 100) "face_recognition" 12 =
      (.failure "Attendance already marked for this session",
       { sessions := [⟨1, 1, 0, 60, true⟩]
         users := [⟨1, UserRole.student⟩]
         enrollments := []
         records :=
           [⟨1, 1, 1, 5, "present", 9 / 10, "face_recognition"⟩] }) :=
  c1_already_marked 15
    { sessions := [⟨1, 1, 0, 60, true⟩]
      users := [⟨1, UserRole.student⟩]
      enrollments := []
      records := [⟨1, 1, 1, 5, "present", 9 / 10, "face_recognition"⟩] }
    1 1 (93 / 100) "face_recognition" 12
    ⟨1, 1, 0, 60, true⟩ ⟨1, UserRole.student⟩
    ⟨1, 1, 1, 5, "present", 9 / 10, "face_recognition"⟩
    rfl rfl rfl

/-- C3 counterexample: check-in 09:00 (minute 540), check-out 12:00
(minute 720), scheduled end 17:00 (minute 1020), early-departure grace 15,
prior status `"present"`.  Total hours = 3, so the claimed classifier
yields `HalfDay`, but the code yields `"early_departure"`. -/
theorem c3_counterexample :
    face_check_out_status 720 540 1020 15 "present" = "early_departure" ∧
    specDayClassify 8 540 15 1020 15 540 720 = "half_day" ∧
    ("early_departure" : String) ≠ "half_day" := by
  refine ⟨?_, ?_, by decide⟩
  · norm_num [face_check_out_status, checkout_total_hours]
  · norm_num [specDayClassify]

/-- C3 amended: the code computes `totalHours = checkout − checkin` on the
same calendar date with no overnight adjustment, and classifies by:
`totalHours ≥ 8` → (`"overtime"` if `> 9` else `"present"`, the manual
path keeping a prior `"late"`); else the face path yields
`"early_departure"` when the checkout time is before
`scheduledEnd − earlyDepartureGrace` and otherwise keeps the check-in
status; the manual path keeps the check-in status whenever
`totalHours < 8`.  There is no HalfDay category. -/
theorem c3_day_checkout (now ci we em : Int) (ps : String) :
    (checkout_total_hours now ci ≥ 8 → checkout_total_hours now ci > 9 →
      face_check_out_status now ci we em ps = "overtime" ∧
      manual_check_out_status now ci ps = "overtime") ∧
    (checkout_total_hours now ci ≥ 8 → ¬ checkout_total_hours now ci > 9 →
      face_check_out_status now ci we em ps = "present" ∧
      manual_check_out_status now ci ps =
        (if ps == "late" then ps else "present")) ∧
    (¬ checkout_total_hours now ci ≥ 8 → now < we - em →
      face_check_out_status now ci we em ps = "early_departure") ∧
    (¬ checkout_total_hours now ci ≥ 8 → ¬ now < we - em →
      face_check_out_status now ci we em ps = ps) ∧
    (¬ checkout_total_hours now ci ≥ 8 →
      manual_check_out_status now ci ps = ps) := by
  refine ⟨?_, ?_, ?_, ?_, ?_⟩
  · intro h1 h2
    constructor <;>
      simp [face_check_out_status, manual_check_out_status, h1, h2]
  · intro h1 h2
    constructor <;>
      simp [face_check_out_status, manual_check_out_status, h1, h2]
  · intro h1 h2
    simp [face_check_out_status, h1, h2]
  · intro h1 h2
    simp [face_check_out_status, h1, h2]
  · intro h1
    simp [manual_check_out_status, h1]

/-- Witness for the amended C3: check-in 08:00 (480), check-out 18:00
(1080): 10 hours, overtime on both paths. -/
theorem c3_day_checkout_witness :
    face_check_out_status 1080 480 1020 15 "present" = "overtime" ∧
    manual_check_out_status 1080 480 "present" = "overtime" :=
  (c3_day_checkout 1080 480 1020 15 "present").1
    (by norm_num [checkout_total_hours])
    (by norm_num [checkout_total_hours])

/-- C4 counterexample: with both top candidate scores equal to 0.86 (above
the 0.85 threshold, margin 0), the code accepts, but the claimed rule
rejects for every positive margin. -/
theorem c4_counterexample :
    (recognize_face [86 / 100, 86 / 100] (85 / 100)).1 = true ∧
    (∀ m : Rat, 0 < m →
      specIdentAccept [86 / 100, 86 / 100] (85 / 100) m = false) := by
  constructor
  · norm_num [recognize_face, recognize_confidence, List.foldl, max_def]
  · intro m hm
    have h : topTwo [86 / 100, 86 / 100] = (86 / 100, 86 / 100) := by
      norm_num [topTwo, List.foldl]
    simp only [specIdentAccept, h]
    rw [if_neg]
    rintro ⟨-, hc⟩
    norm_num at hc
    linarith

/-- C4 amended: identification accepts iff the top candidate score is at
least the threshold; the second-best score is never consulted — the
decision on any candidate list equals the decision on its top score
alone. -/
theorem c4_identification (probs : List Rat) (t : Rat) :
    (recognize_face probs t).1 =
      (recognize_face [recognize_confidence probs] t).1 ∧
    ((recognize_face probs t).1 = true ↔
      t ≤ recognize_confidence probs) := by
  have h0 : (0 : Rat) ≤ recognize_confidence probs := le_foldl_max probs 0
  constructor
  · show decide (t ≤ recognize_confidence probs) =
      decide (t ≤ recognize_confidence [recognize_confidence probs])
    have h1 : recognize_confidence [recognize_confidence probs] =
        recognize_confidence probs := by
      show max 0 (recognize_confidence probs) = recognize_confidence probs
      exact max_eq_right h0
    rw [h1]
  · simp [recognize_face]

/-- Witness for the amended C4 at a concrete candidate list. -/
theorem c4_identification_witness :
    (recognize_face [3 / 10, 9 / 10] (85 / 100)).1 =
      (recognize_face [recognize_confidence [3 / 10, 9 / 10]]
        (85 / 100)).1 :=
  (c4_identification [3 / 10, 9 / 10] (85 / 100)).1

/-- A `mark_student_attendance` call either leaves the record list alone
or appends exactly one record, for a pair that had no record, with a
classifier status. -/
theorem mark_records_cases (g : Int) (db : DB) (sid sess : Nat)
    (conf : Rat) (m : String) (now : Int) :
    (mark_student_attendance g db sid sess conf m now).2.records =
      db.records ∨
    ∃ r : AttendanceRecord,
      (mark_student_attendance g db sid sess conf m now).2.records =
        db.records ++ [r] ∧
      (r.status = "present" ∨ r.status = "late") ∧
      r.student_id = sid ∧ r.session_id = sess ∧
      db.records.find? (fun a =>
        a.student_id == sid && a.session_id == sess) = none := by
  unfold mark_student_attendance
  cases h1 : db.sessions.find? (fun s => s.id == sess) with
  | none => left; rfl
  | some s =>
    cases h2 : db.users.find? (fun u =>
        u.id == sid && u.role == UserRole.student) with
    | none => left; rfl
    | some u =>
      cases h3 : db.records.find? (fun a =>
          a.student_id == sid && a.session_id == sess) with
      | some a => left; rfl
      | none =>
          right
          refine ⟨_, rfl, ?_, rfl, rfl, rfl⟩
          exact calc_status_mem g now s.session_date
            (some (s.session_date + s.duration_minutes))

/-- Appending one record changes a pair count by one exactly when the
record matches the pair. -/
theorem pairCount_append (l : List AttendanceRecord)
    (r : AttendanceRecord) (sid sess : Nat) :
    pairCount (l ++ [r]) sid sess =
      pairCount l sid sess +
        (if r.student_id == sid && r.session_id == sess then 1 else 0) := by
  unfold pairCount
  rw [List.filter_append, List.length_append]
  cases h : (r.student_id == sid && r.session_id == sess) <;>
    simp [List.filter, h]

/-- A pair with no record found by the existence check has count zero. -/
theorem pairCount_of_find?_none (l : List AttendanceRecord)
    (sid sess : Nat)
    (h : l.find? (fun a =>
      a.student_id == sid && a.session_id == sess) = none) :
    pairCount l sid sess = 0 := by
  unfold pairCount
  rw [List.length_eq_zero, List.filter_eq_nil_iff]
  intro a ha
  exact List.find?_eq_none.mp h a ha

/-- One serialized marking call preserves the at-most-one-record-per-pair
invariant. -/
theorem mark_preserves_unique (g : Int) (db : DB) (sid sess : Nat)
    (conf : Rat) (m : String) (now : Int)
    (h : ∀ a b, pairCount db.records a b ≤ 1) :
    ∀ a b, pairCount
      (mark_student_attendance g db sid sess conf m now).2.records a b ≤ 1 := by
  intro a b
  rcases mark_records_cases g db sid sess conf m now with
    hsame | ⟨r, heq, _, hsid, hsess, hnone⟩
  · rw [hsame]; exact h a b
  · rw [heq, pairCount_append]
    cases hmatch : (r.student_id == a && r.session_id == b) with
    | false => simpa [hmatch] using h a b
    | true =>
        have hab : r.student_id = a ∧ r.session_id = b := by
          have := hmatch
          simp only [Bool.and_eq_true, beq_iff_eq] at this
          exact this
        have hz : pairCount db.records a b = 0 := by
          rw [← hab.1, ← hab.2, hsid, hsess]
          exact pairCount_of_find?_none db.records sid sess hnone
        simp [hmatch, hz]

/-- One serialized marking call only appends classifier statuses. -/
theorem mark_preserves_status (g : Int) (db : DB) (sid sess : Nat)
    (conf : Rat) (m : String) (now : Int)
    (h : ∀ r ∈ db.records, r.status = "present" ∨ r.status = "late") :
    ∀ r ∈ (mark_student_attendance g db sid sess conf m now).2.records,
      r.status = "present" ∨ r.status = "late" := by
  intro r hr
  rcases mark_records_cases g db sid sess conf m now with
    hsame | ⟨r0, heq, hst, _, _, _⟩
  · rw [hsame] at hr; exact h r hr
  · rw [heq] at hr
    rcases List.mem_append.mp hr with h1 | h2
    · exact h r h1
    · rw [List.mem_singleton.mp h2]; exact hst

/-- Serialized marking sequences preserve the uniqueness invariant. -/
theorem runMarks_unique (g : Int) (ops : List MarkOp) (db : DB)
    (h : ∀ a b, pairCount db.records a b ≤ 1) :
    ∀ a b, pairCount (runMarks g db ops).records a b ≤ 1 := by
  induction ops generalizing db with
  | nil => exact h
  | cons op rest ih =>
      exact ih _ (mark_preserves_unique g db op.student_id op.session_id
        op.face_confidence op.recognition_method op.now h)

/-- Serialized marking sequences only ever store classifier statuses. -/
theorem runMarks_status (g : Int) (ops : List MarkOp) (db : DB)
    (h : ∀ r ∈ db.records, r.status = "present" ∨ r.status = "late") :
    ∀ r ∈ (runMarks g db ops).records,
      r.status = "present" ∨ r.status = "late" := by
  induction ops generalizing db with
  | nil => exact h
  | cons op rest ih =>
      exact ih _ (mark_preserves_status g db op.student_id op.session_id
        op.face_confidence op.recognition_method op.now h)

/-- C6 counterexample: in the closed-session state with one actively
enrolled student who produced no event, that student has zero
`AttendanceRecord`s (not exactly one): no `Absent` record is synthesized;
the `"absent"` status exists only inside the `get_session_attendance`
report. -/
theorem c6_counterexample :
    pairCount dbClosedSession.records 1 1 = 0 ∧
    ¬ pairCount dbClosedSession.records 1 1 = 1 ∧
    (get_session_attendance dbClosedSession 1).map
      (fun rep => rep.students.map (fun d => d.status)) =
      .ok ["absent"] := by
  refine ⟨by decide, by decide, ?_⟩
  rfl

/-- C6 amended: there is no absence sweep.  In every state reachable by
marking operations from an empty record store, every stored record was
created by a verified marking event (its status is `"present"` or
`"late"`, never `"absent"`), each pair has at most one record, and
`get_today_attendance` returns its synthesized `"absent"` response record
without persisting it. -/
theorem c6_no_absence_sweep (g : Int) (ops : List MarkOp) (db : DB)
    (h : db.records = []) :
    (∀ r ∈ (runMarks g db ops).records,
      r.status = "present" ∨ r.status = "late") ∧
    (∀ sid sess, pairCount (runMarks g db ops).records sid sess ≤ 1) ∧
    (∀ recs uid d, (get_today_attendance recs uid d).2 = recs) := by
  refine ⟨runMarks_status g ops db ?_, runMarks_unique g ops db ?_, ?_⟩
  · rw [h]; intro r hr; cases hr
  · intro a b; rw [h]; simp [pairCount]
  · intro recs uid d
    unfold get_today_attendance
    cases recs.find? (fun a => a.user_id == uid && a.date == d) <;> rfl

/-- Witness for the amended C6: one marking operation from the empty
store. -/
theorem c6_no_absence_sweep_witness :
    (∀ r ∈ (runMarks 15 dbOneStudent [opStudent1]).records,
      r.status = "present" ∨ r.status = "late") ∧
    (∀ sid sess,
      pairCount (runMarks 15 dbOneStudent [opStudent1]).records sid sess
        ≤ 1) ∧
    (∀ recs uid d, (get_today_attendance recs uid d).2 = recs) :=
  c6_no_absence_sweep 15 [opStudent1] dbOneStudent rfl

/-- C8 counterexample: two concurrent `mark_student_attendance` calls for
the same (student, session) pair, interleaved as read / read / write /
write, both pass the existence check and both insert: the final store
holds two records for the pair, violating at-most-one. -/
theorem c8_counterexample :
    pairCount (runTwoThreads [] raceThread raceThread
      [false, true, false, true]) 1 1 = 2 ∧
    ¬ pairCount (runTwoThreads [] raceThread raceThread
      [false, true, false, true]) 1 1 ≤ 1 := by
  refine ⟨by rfl, by decide⟩

/-- C8 amended: the uniqueness invariant does hold for serialized
executions — any sequence of completed `mark_student_attendance` calls
keeps at most one record per (student, session) pair — but the path is an
unatomic read-then-write, so it does not survive interleaving (see the
counterexample). -/
theorem c8_serialized_unique (g : Int) (ops : List MarkOp) (db : DB)
    (h : ∀ a b, pairCount db.records a b ≤ 1) :
    ∀ a b, pairCount (runMarks g db ops).records a b ≤ 1 :=
  runMarks_unique g ops db h

/-- Witness for the amended C8: two serialized attempts for the same pair
leave exactly one record, and every pair count is at most one. -/
theorem c8_serialized_unique_witness :
    pairCount
      (runMarks 15 dbOneStudent [opStudent1, opStudent1]).records 1 1
        ≤ 1 :=
  c8_serialized_unique 15 [opStudent1, opStudent1] dbOneStudent
    (fun a b => by simp [dbOneStudent, pairCount]) 1 1

/-- A cached trends call returns exactly the pure recomputation whenever
the cache is coherent with the record store. -/
theorem trends_call_eq_pure (st : AnalyticsState) (now : Int)
    (records : List ARecord) (key : TrendsKey)
    (hc : cacheCoherent st records) :
    (calculate_attendance_trends st now records key).1 =
      attendance_trends_pure records key.start_date key.end_date
        key.department key.user_id := by
  unfold calculate_attendance_trends
  by_cases hv : is_cache_valid st key now = true
  · rw [if_pos hv]
    cases hf : st.cache.find? (fun e => e.1 == key) with
    | none => rfl
    | some e =>
        have hmem : e ∈ st.cache := List.mem_of_find?_eq_some hf
        have hkey : e.1 = key := by
          have := List.find?_some hf
          simpa using this
        have := hc e hmem
        rw [hkey] at this
        simpa using this
  · rw [if_neg hv]

/-- C7 counterexample: `AnalyticsService.calculate_attendance_trends` is
not reproducible on equal inputs.  With a cache entry computed while the
history was still empty (the cache key omits the history, so adding a
record does not invalidate it), a call at second 100 (inside the 300 s
TTL) returns the stale empty report while a call at second 400 (after
expiry) recomputes over the same one-record history: same state, same
history, same key, different results. -/
theorem c7_counterexample :
    (calculate_attendance_trends staleTrendsState 100 recordsC7
      keyC7).1.total_records = 0 ∧
    (calculate_attendance_trends staleTrendsState 400 recordsC7
      keyC7).1.total_records = 1 ∧
    (calculate_attendance_trends staleTrendsState 100 recordsC7 keyC7).1 ≠
      (calculate_attendance_trends staleTrendsState 400 recordsC7
        keyC7).1 := by
  refine ⟨rfl, rfl, ?_⟩
  intro h
  exact absurd (congrArg TrendsResult.total_records h) (by decide)

/-- C7 amended: the weekly/monthly trend computation
`_calculate_attendance_trends` is a pure function of (sessions,
attendance records, total student count): its output is independent of
the service instance and it leaves the instance state unchanged, so two
runs on equal inputs return identical weekly and monthly trends.  The
`AnalyticsService` wrapper is reproducible only when every cache entry
matches the pure recomputation over the current history (its cache key
omits the history, so this can fail — see the counterexample). -/
theorem c7_trends_reproducible
    (self1 self2 : UniversityAttendanceServiceConfig)
    (weekKey monthKey : Int → String)
    (sessions : List ClassSession)
    (attendance_records : List AttendanceRecord) (total_students : Nat)
    (s1 s2 : AnalyticsState) (now1 now2 : Int)
    (history : List ARecord) (key : TrendsKey)
    (h1 : cacheCoherent s1 history) (h2 : cacheCoherent s2 history) :
    (_calculate_attendance_trends self1 weekKey monthKey sessions
        attendance_records total_students).1 =
      (_calculate_attendance_trends self2 weekKey monthKey sessions
        attendance_records total_students).1 ∧
    (_calculate_attendance_trends self1 weekKey monthKey sessions
        attendance_records total_students).2 = self1 ∧
    (calculate_attendance_trends s1 now1 history key).1 =
      (calculate_attendance_trends s2 now2 history key).1 := by
  refine ⟨?_, ?_, ?_⟩
  · unfold _calculate_attendance_trends
    by_cases h : sessions = [] <;> simp [h]
  · unfold _calculate_attendance_trends
    by_cases h : sessions = [] <;> simp [h]
  · rw [trends_call_eq_pure s1 now1 history key h1,
        trends_call_eq_pure s2 now2 history key h2]

/-- Witness for the amended C7: two service instances with different
configurations over one session and one record, and two fresh
(empty-cache, hence coherent) analytics states at different times. -/
theorem c7_trends_reproducible_witness :
    (_calculate_attendance_trends
        { late_threshold_minutes := 15,
          minimum_attendance_percentage := 75 }
        (fun d => toString (d / 10080)) (fun d => toString (d / 43200))
        [{ id := 1, course_id := 1, session_date := 0,
           duration_minutes := 60, is_active := true }]
        [{ student_id := 1, course_id := 1, session_id := 1,
           marked_at := 5, status := "present", face_confidence := 1,
           recognition_method := "face_recognition" }] 2).1 =
      (_calculate_attendance_trends
        { late_threshold_minutes := 10,
          minimum_attendance_percentage := 60 }
        (fun d => toString (d / 10080)) (fun d => toString (d / 43200))
        [{ id := 1, course_id := 1, session_date := 0,
           duration_minutes := 60, is_active := true }]
        [{ student_id := 1, course_id := 1, session_id := 1,
           marked_at := 5, status := "present", face_confidence := 1,
           recognition_method := "face_recognition" }] 2).1 ∧
    (_calculate_attendance_trends
        { late_threshold_minutes := 15,
          minimum_attendance_percentage := 75 }
        (fun d => toString (d / 10080)) (fun d => toString (d / 43200))
        [{ id := 1, course_id := 1, session_date := 0,
           duration_minutes := 60, is_active := true }]
        [{ student_id := 1, course_id := 1, session_id := 1,
           marked_at := 5, status := "present", face_confidence := 1,
           recognition_method := "face_recognition" }] 2).2 =
      { late_threshold_minutes := 15,
        minimum_attendance_percentage := 75 } ∧
    (calculate_attendance_trends { cache := [] } 0 recordsC7 keyC7).1 =
      (calculate_attendance_trends { cache := [] } 500 recordsC7
        keyC7).1 :=
  c7_trends_reproducible
    { late_threshold_minutes := 15, minimum_attendance_percentage := 75 }
    { late_threshold_minutes := 10, minimum_attendance_percentage := 60 }
    (fun d => toString (d / 10080)) (fun d => toString (d / 43200))
    [{ id := 1, course_id := 1, session_date := 0,
       duration_minutes := 60, is_active := true }]
    [{ student_id := 1, course_id := 1, session_id := 1,
       marked_at := 5, status := "present", face_confidence := 1,
       recognition_method := "face_recognition" }] 2
    { cache := [] } { cache := [] } 0 500 recordsC7 keyC7
    (fun e he => by cases he) (fun e he => by cases he)

/-- The report entry built for an enrollment carries that enrollment's
student id, in both branches. -/
theorem studentDetailFor_student_id (rs : List AttendanceRecord)
    (e : Enrollment) :
    (studentDetailFor rs e).student_id = e.student_id := by
  unfold studentDetailFor
  cases rs.find? (fun a => a.student_id == e.student_id) <;> rfl

/-- The report entry for an enrollment carries the first matching
record's fields when one exists, and the synthesized `"absent"` fields
otherwise. -/
theorem studentDetailFor_spec (rs : List AttendanceRecord)
    (e : Enrollment) :
    match rs.find? (fun a => a.student_id == e.student_id) with
    | some a =>
        (studentDetailFor rs e).status = a.status ∧
        (studentDetailFor rs e).marked_at = some a.marked_at ∧
        (studentDetailFor rs e).confidence = some a.face_confidence ∧
        (studentDetailFor rs e).method = some a.recognition_method
    | none =>
        (studentDetailFor rs e).status = "absent" ∧
        (studentDetailFor rs e).marked_at = none ∧
        (studentDetailFor rs e).confidence = none ∧
        (studentDetailFor rs e).method = none := by
  cases h : rs.find? (fun a => a.student_id == e.student_id) with
  | none => simp [studentDetailFor, h]
  | some a => simp [studentDetailFor, h]

/-- C9: when the session exists, `get_session_attendance` returns a
report with exactly one entry per active enrollment (entry counts per
student id match the active-enrollment counts), each entry carrying the
matching record's status/fields or the synthesized `"absent"` entry with
null fields, and a summary in which `total_students` is the number of
active enrollments and `present_students + absent_students =
total_students`. -/
theorem c9_session_report (db : DB) (session_id : Nat)
    (session : ClassSession)
    (hs : db.sessions.find? (fun s => s.id == session_id) = some session) :
    ∃ rep, get_session_attendance db session_id = .ok rep ∧
      rep.summary.total_students =
        ((activeEnrollments db session.course_id).length : Int) ∧
      rep.summary.total_students =
        rep.summary.present_students + rep.summary.absent_students ∧
      rep.students.length =
        (activeEnrollments db session.course_id).length ∧
      (∀ stu : Nat,
        (rep.students.filter (fun d => d.student_id == stu)).length =
        ((activeEnrollments db session.course_id).filter
          (fun e => e.student_id == stu)).length) ∧
      (∀ d ∈ rep.students,
        match (sessionRecords db session_id).find?
            (fun a => a.student_id == d.student_id) with
        | some a => d.status = a.status ∧ d.marked_at = some a.marked_at ∧
            d.confidence = some a.face_confidence ∧
            d.method = some a.recognition_method
        | none => d.status = "absent" ∧ d.marked_at = none ∧
            d.confidence = none ∧ d.method = none) := by
  unfold get_session_attendance
  rw [hs]
  refine ⟨_, rfl, rfl, ?_, ?_, ?_, ?_⟩
  · show ((activeEnrollments db session.course_id).length : Int) =
      ((sessionRecords db session_id).length : Int) +
        (((activeEnrollments db session.course_id).length : Int) -
          ((sessionRecords db session_id).length : Int))
    omega
  · show ((activeEnrollments db session.course_id).map
      (studentDetailFor (sessionRecords db session_id))).length =
      (activeEnrollments db session.course_id).length
    simp
  · intro stu
    show (((activeEnrollments db session.course_id).map
        (studentDetailFor (sessionRecords db session_id))).filter
        (fun d => d.student_id == stu)).length =
      ((activeEnrollments db session.course_id).filter
        (fun e => e.student_id == stu)).length
    rw [← List.countP_eq_length_filter, ← List.countP_eq_length_filter,
      List.countP_map]
    apply List.countP_congr
    intro e _
    simp [Function.comp, studentDetailFor_student_id]
  · intro d hd
    rcases List.mem_map.mp hd with ⟨e, _, rfl⟩
    simp only [studentDetailFor_student_id]
    exact studentDetailFor_spec (sessionRecords db session_id) e

/-- Witness for C9 over `dbReport`: student 1 marked `"present"`,
student 2 synthesized `"absent"`, dropped student 3 excluded. -/
theorem c9_session_report_witness :
    dbReport.sessions.find? (fun s => s.id == 1) =
      some { id := 1, course_id := 1, session_date := 0,
             duration_minutes := 60, is_active := true } ∧
    (∃ rep, get_session_attendance dbReport 1 = .ok rep ∧
      rep.summary.total_students =
        ((activeEnrollments dbReport 1).length : Int) ∧
      rep.summary.total_students =
        rep.summary.present_students + rep.summary.absent_students ∧
      rep.students.length = (activeEnrollments dbReport 1).length ∧
      (∀ stu : Nat,
        (rep.students.filter (fun d => d.student_id == stu)).length =
        ((activeEnrollments dbReport 1).filter
          (fun e => e.student_id == stu)).length) ∧
      (∀ d ∈ rep.students,
        match (sessionRecords dbReport 1).find?
            (fun a => a.student_id == d.student_id) with
        | some a => d.status = a.status ∧ d.marked_at = some a.marked_at ∧
            d.confidence = some a.face_confidence ∧
            d.method = some a.recognition_method
        | none => d.status = "absent" ∧ d.marked_at = none ∧
            d.confidence = none ∧ d.method = none)) :=
  ⟨rfl,
   c9_session_report dbReport 1
     { id := 1, course_id := 1, session_date := 0,
       duration_minutes := 60, is_active := true } rfl⟩

end UniAttend
